import Mathlib

/-!
# Verification of the urasoe resilient batch-processing core

This file gives a shallow embedding, in Lean 4, of the decision logic of the
`urasoe` repository (a ControlNet image-generation driver written in Rust) and
proves properties about it.  The embedded code lives in `src/processing.rs`
(error classification `RetryManager::is_cuda_error`, the retry loop
`RetryManager::process_with_retry`, batch pacing `BatchManager`, and the
statistics aggregator `ProcessingStats`) and in the per-item recording step of
`main.rs`.

Conventions of the embedding:
* Rust `String` error messages become Lean `String`s; `str::contains` is the
  executable substring test `strContains`; `str::to_lowercase` is `strLower`
  (character-wise lowering; the inputs of interest are ASCII).
* `u32`/`u64`/`usize` counters become `Nat`.  Where the Rust program can
  *panic* (division by zero in `%`, underflow of `usize` subtraction, both
  checked in debug builds), the embedded function returns `Option`/`none`.
* The injected remote call `client.generate_with_controlnet(..)` is modelled
  as a function `call : Nat → Except String α` giving the outcome of the n-th
  invocation (0-indexed); the retry loop is embedded with explicit fuel and
  returns, besides the final outcome, the number of invocations made and the
  list of back-off sleeps performed (in order), so that timing/counting claims
  are statable.
-/

/-! ## String primitives (embedding of `str::to_lowercase` and `str::contains`) -/

/-- Character-wise lowercasing of a string, the embedding of Rust
`str::to_lowercase` (the repository only classifies ASCII error messages). -/
def strLower (s : String) : String := ⟨s.data.map Char.toLower⟩

/-- `containsSub l p` decides whether the character list `p` occurs
contiguously inside `l` (the embedding of Rust `str::contains`). -/
def containsSub : List Char → List Char → Bool
  | [], p => p.isEmpty
  | c :: rest, p => p.isPrefixOf (c :: rest) || containsSub rest p

/-- `strContains s pat`: does `pat` occur as a substring of `s`?  Embedding of
Rust `str::contains` used by `RetryManager::is_cuda_error`. -/
def strContains (s pat : String) : Bool := containsSub s.data pat.data

/-- Occurrence of `p` inside `l` stated mathematically: some prefix `pre` and
suffix `post` surround `p` in `l`.  Used to state case-insensitive-containment
hypotheses independently of the executable `containsSub`. -/
def OccursIn (p l : List Char) : Prop := ∃ pre post, l = pre ++ p ++ post

theorem isPrefixOf_append_self (p t : List Char) :
    p.isPrefixOf (p ++ t) = true := by
  induction p with
  | nil => simp [List.isPrefixOf]
  | cons c cs ih => simp [List.isPrefixOf, ih]

theorem containsSub_nil_pat (l : List Char) : containsSub l [] = true := by
  cases l <;> simp [containsSub, List.isEmpty, List.isPrefixOf]

theorem containsSub_of_occursIn {p l : List Char} (h : OccursIn p l) :
    containsSub l p = true := by
  obtain ⟨pre, post, rfl⟩ := h
  induction pre with
  | nil =>
    cases p with
    | nil => exact containsSub_nil_pat _
    | cons c cs =>
      simp only [List.nil_append, List.cons_append, containsSub, Bool.or_eq_true]
      exact Or.inl (isPrefixOf_append_self (c :: cs) post)
  | cons c cs ih =>
    simp only [List.cons_append, containsSub, Bool.or_eq_true]
    exact Or.inr ih

/-! ## `RetryManager::is_cuda_error` (processing.rs lines 171–204)

The Rust method lower-cases the formatted error message once and then runs an
ordered set of substring predicates; any match means the error is treated as a
transient CUDA/GPU error, otherwise it is permanent. -/

/-- The predicate part of `RetryManager::is_cuda_error`, operating on the
already-lowercased message (the body after `let error_msg = ...to_lowercase()`).
Each disjunct transcribes one `if` of the Rust source, with Rust's
`&&`-over-`||` precedence made explicit. -/
def is_cuda_error_lc (m : String) : Bool :=
  -- GPU-specific terms
  (strContains m "cuda" || strContains m "gpu" ||
   strContains m "vram" || strContains m "nvidia")
  ||
  -- memory-related phrases, excluding system/heap memory indicators
  ((strContains m "out of memory" && !strContains m "heap" && !strContains m "system") ||
   (strContains m "memory exhausted" && !strContains m "system") ||
   (strContains m "memory allocation failed" && !strContains m "heap") ||
   (strContains m "not enough" && strContains m "memory" && !strContains m "system"))
  ||
  -- timeouts (Rust precedence: "timed out" ∨ ("timeout" ∧ "compute"))
  (strContains m "timed out" || (strContains m "timeout" && strContains m "compute"))
  ||
  -- device-specific errors
  ((strContains m "device" && strContains m "error") || strContains m "hardware error")

/-- `RetryManager::is_cuda_error`: lower-case the error message, then match the
predicates.  `true` plays the role of the spec's `Transient`, `false` of
`Permanent`. -/
def is_cuda_error (msg : String) : Bool := is_cuda_error_lc (strLower msg)

/-! ## `RetryManager::process_with_retry` (processing.rs lines 89–168)

The Rust loop, with `attempt` starting at 0 and `last_error` starting at
`None`:

* while `attempt < max_retries`:
  * if `attempt > 0`: sleep `retry_delay_ms * attempt` milliseconds;
  * invoke the remote call; on `Ok(result)` return it immediately;
  * on `Err(error)`: `attempt += 1`; then
    * if the error is a CUDA error and `attempt < max_retries`: continue the
      loop (note: `last_error` is *not* recorded here);
    * else if `attempt >= max_retries`: record `last_error` and break;
    * else: record `last_error` and continue the loop (no break — a non-CUDA
      error with attempts remaining is retried as well);
* after the loop, fail with `last_error`, or with the generic message
  `"Exhausted all retry attempts without a specific error"` when no error was
  recorded (only possible when `max_retries = 0`).

The `image_path` parameter of the Rust method is used only in console output
(`path_display`), never in the returned value, so the embedding omits it.
The remote call is injected as `call : Nat → Except String α`; invocation `n`
is the one performed while `attempt = n`. -/

/-- Observable behaviour of one `process_with_retry` run: the returned value,
how many times the remote call was invoked, and the back-off sleeps performed
(in order; no sleep precedes attempt 0). -/
structure RetryResult (α : Type) where
  outcome : Except String α
  calls : Nat
  sleeps : List Nat
  deriving Repr

/-- The generic error used when retries are exhausted with no recorded error
(processing.rs line 156). -/
def exhaustedMsg : String := "Exhausted all retry attempts without a specific error"

/-- The `while attempt < max_retries` loop of `process_with_retry`, embedded
with explicit `fuel`.  Starting from `attempt`, `fuel = max_retries - attempt`
is always enough: `attempt` increases by one per iteration and the loop stops
once `attempt ≥ max_retries`, so with that fuel the `fuel = 0` base case is
never the reason the loop stops. -/
def retryLoop (maxRetries retryDelayMs : Nat) (call : Nat → Except String α) :
    Nat → Nat → Option String → RetryResult α
  | 0, _, lastError => ⟨.error (lastError.getD exhaustedMsg), 0, []⟩
  | fuel + 1, attempt, lastError =>
    if attempt < maxRetries then
      let sleepsHere := if 0 < attempt then [retryDelayMs * attempt] else []
      match call attempt with
      | .ok r => ⟨.ok r, 1, sleepsHere⟩
      | .error e =>
        if is_cuda_error e && attempt + 1 < maxRetries then
          let rest := retryLoop maxRetries retryDelayMs call fuel (attempt + 1) lastError
          ⟨rest.outcome, rest.calls + 1, sleepsHere ++ rest.sleeps⟩
        else if maxRetries ≤ attempt + 1 then
          ⟨.error e, 1, sleepsHere⟩
        else
          let rest := retryLoop maxRetries retryDelayMs call fuel (attempt + 1) (some e)
          ⟨rest.outcome, rest.calls + 1, sleepsHere ++ rest.sleeps⟩
    else
      ⟨.error (lastError.getD exhaustedMsg), 0, []⟩

/-- `RetryManager::process_with_retry` with `max_retries` and `retry_delay_ms`
from `RetryManager::with_config`, run against the injected remote call. -/
def process_with_retry (maxRetries retryDelayMs : Nat)
    (call : Nat → Except String α) : RetryResult α :=
  retryLoop maxRetries retryDelayMs call maxRetries 0 none

/-- The back-off sleeps performed by `fuel` consecutive loop iterations
starting at `attempt`: the iteration at attempt `a > 0` sleeps `D * a`
milliseconds, the iteration at attempt 0 sleeps not at all. -/
def backoffSleeps (D attempt fuel : Nat) : List Nat :=
  match fuel with
  | 0 => []
  | fuel + 1 =>
    (if 0 < attempt then [D * attempt] else []) ++ backoffSleeps D (attempt + 1) fuel

theorem backoffSleeps_pos (D : Nat) :
    ∀ fuel attempt, 0 < attempt →
      backoffSleeps D attempt fuel = (List.range' attempt fuel).map (fun n => D * n) := by
  intro fuel
  induction fuel with
  | zero => intro attempt _; simp [backoffSleeps]
  | succ fuel ih =>
    intro attempt ha
    rw [List.range'_succ]
    simp only [backoffSleeps, if_pos ha, List.map_cons, List.singleton_append]
    rw [ih (attempt + 1) (Nat.succ_pos attempt)]

theorem backoffSleeps_zero_start (D fuel : Nat) :
    backoffSleeps D 0 (fuel + 1) = (List.range' 1 fuel).map (fun n => D * n) := by
  simp only [backoffSleeps, if_neg (lt_irrefl 0), List.nil_append]
  exact backoffSleeps_pos D fuel 1 Nat.one_pos

/-- The loop makes at most `fuel` invocations of the remote call. -/
theorem retryLoop_calls_le {α : Type} (maxR D : Nat) (call : Nat → Except String α) :
    ∀ fuel attempt lastError,
      (retryLoop maxR D call fuel attempt lastError).calls ≤ fuel := by
  intro fuel
  induction fuel with
  | zero => intro attempt lastError; simp [retryLoop]
  | succ fuel ih =>
    intro attempt lastError
    simp only [retryLoop]
    split
    · cases hc : call attempt with
      | ok r => simp
      | error e =>
        simp only
        split
        · have := ih (attempt + 1) lastError
          simp only [retryLoop] at this ⊢
          omega
        · split
          · simp
          · have := ih (attempt + 1) (some e)
            simp only [retryLoop] at this ⊢
            omega
    · simp

/-- If every invocation before `k` fails and invocation `k` succeeds with `v`
(and `k` is within the attempt budget), the loop returns `.ok v` after exactly
`k + 1 - attempt` invocations: the first success short-circuits everything
after it, and a failure — CUDA-classified or not — with attempts remaining
never stops the loop early. -/
theorem retryLoop_first_success {α : Type} (maxR D : Nat)
    (call : Nat → Except String α) (k : Nat) (v : α)
    (hk : k < maxR) (hok : call k = .ok v)
    (hfail : ∀ n, n < k → ∃ msg, call n = .error msg) :
    ∀ fuel attempt lastError, attempt ≤ k → maxR ≤ attempt + fuel →
      retryLoop maxR D call fuel attempt lastError =
        ⟨.ok v, k + 1 - attempt, backoffSleeps D attempt (k + 1 - attempt)⟩ := by
  intro fuel
  induction fuel with
  | zero => intro attempt lastError hak hfuel; omega
  | succ fuel ih =>
    intro attempt lastError hak hfuel
    have hlt : attempt < maxR := Nat.lt_of_le_of_lt hak hk
    rcases Nat.eq_or_lt_of_le hak with heq | hstrict
    · subst heq
      simp only [retryLoop, if_pos hlt, hok]
      have h2 : attempt + 1 - attempt = 1 := by omega
      rw [h2]
      simp [backoffSleeps]
    · obtain ⟨msg, hmsg⟩ := hfail attempt hstrict
      have hsub : k + 1 - attempt = (k + 1 - (attempt + 1)) + 1 := by omega
      simp only [retryLoop, if_pos hlt, hmsg]
      split
      · rw [ih (attempt + 1) lastError (by omega) (by omega), hsub]
        simp [backoffSleeps]
      · split
        · omega
        · rw [ih (attempt + 1) (some msg) (by omega) (by omega), hsub]
          simp [backoffSleeps]

/-- If every invocation fails (with message `e n` on invocation `n`), the loop
runs all its remaining iterations, sleeping the linear back-off before every
attempt after the first, and returns the very last failure — regardless of how
any of the failures is classified. -/
theorem retryLoop_all_fail {α : Type} (maxR D : Nat) (e : Nat → String)
    (call : Nat → Except String α) (hcall : ∀ n, call n = .error (e n)) :
    ∀ fuel attempt lastError, attempt < maxR → maxR ≤ attempt + fuel →
      retryLoop maxR D call fuel attempt lastError =
        ⟨.error (e (maxR - 1)), maxR - attempt,
          backoffSleeps D attempt (maxR - attempt)⟩ := by
  intro fuel
  induction fuel with
  | zero => intro attempt lastError hlt hfuel; omega
  | succ fuel ih =>
    intro attempt lastError hlt hfuel
    simp only [retryLoop, if_pos hlt, hcall attempt]
    rcases Nat.lt_or_ge (attempt + 1) maxR with hrem | hdone
    · have hsub : maxR - attempt = (maxR - (attempt + 1)) + 1 := by omega
      split
      · rw [ih (attempt + 1) lastError hrem (by omega), hsub]
        simp [backoffSleeps]
      · split
        · omega
        · rw [ih (attempt + 1) (some (e attempt)) hrem (by omega), hsub]
          simp [backoffSleeps]
    · have hcond : ¬((is_cuda_error (e attempt) && decide (attempt + 1 < maxR)) = true) := by
        simp only [Bool.and_eq_true, decide_eq_true_eq]
        rintro ⟨-, hx⟩
        omega
      rw [if_neg hcond, if_pos hdone]
      have h1 : attempt = maxR - 1 := by omega
      have h2 : maxR - attempt = 1 := by omega
      rw [h2, ← h1]
      simp only [backoffSleeps, List.append_nil]

/-! ## `BatchManager` (processing.rs lines 207–265)

Only the cooldown *decisions* are embedded; the sleep and yield they guard are
I/O.  Rust panics are modelled by `none`: `%` by zero always panics, and the
`usize` subtraction `total_count - 1` panics on underflow (debug builds).
Rust's `&&` short-circuits, so in `manage_batch_break` the subtraction is
evaluated only when the first conjunct holds. -/

/-- `BatchManager::should_take_break`:
`(index + 1) % self.batch_size as usize == 0 && index > 0`. -/
def should_take_break (batch_size index : Nat) : Option Bool :=
  if batch_size = 0 then none
  else some (decide ((index + 1) % batch_size = 0) && decide (0 < index))

/-- The `is_end_of_batch` decision of `BatchManager::manage_batch_break`:
`(index + 1) % self.batch_size as usize == 0 && index < total_count - 1`
(`true` means the break/cooldown is taken). -/
def manage_batch_break (batch_size index total_count : Nat) : Option Bool :=
  if batch_size = 0 then none
  else if (index + 1) % batch_size ≠ 0 then some false
  else if total_count = 0 then none
  else some (decide (index < total_count - 1))

/-! ## `ProcessingStats` (processing.rs lines 267–315) and the per-item
recording step of `main.rs` (lines 150–170) -/

/-- `ProcessingStats`: success/generated counters and the failed paths, in
insertion order. -/
structure ProcessingStats where
  success_count : Nat
  generated_count : Nat
  failed_paths : List String
  deriving Repr, DecidableEq

/-- `ProcessingStats::new` — all counters zero, no failed paths. -/
def ProcessingStats.new : ProcessingStats := ⟨0, 0, []⟩

/-- The success-recording mutation of `main.rs` (lines 152–153):
`stats.success_count += 1; stats.generated_count += generated.images.len()`. -/
def recordSuccess (s : ProcessingStats) (artifactCount : Nat) : ProcessingStats :=
  { s with success_count := s.success_count + 1,
           generated_count := s.generated_count + artifactCount }

/-- The failure-recording mutation of `main.rs` (lines 155–157 and 166–168):
`stats.failed_paths.push(image_path...)`. -/
def recordFailure (s : ProcessingStats) (path : String) : ProcessingStats :=
  { s with failed_paths := s.failed_paths ++ [path] }

/-- Model of `Path::new(p).file_name().unwrap_or_default().to_str().unwrap_or("unknown")`
used by `ProcessingStats::display`: the final path component (the text after
the last `/`). -/
def file_name_of (p : String) : String :=
  ⟨(p.data.reverse.takeWhile (fun c => c ≠ '/')).reverse⟩

/-- `ProcessingStats::display` as a pure rendering function: the text printed
(colour codes stripped).  The Rust method takes `&self` (it cannot mutate the
statistics) and contains no fallible operation, which the embedding reflects by
being a total function into `String`. -/
def ProcessingStats.display (s : ProcessingStats) (total_images : Nat) : String :=
  let line1 := "✓ Image generation complete!"
  let line2 := "Processed successfully: " ++ toString s.success_count ++ "/" ++
    toString total_images ++ " images, Generated: " ++
    toString s.generated_count ++ " new images"
  let failedLines := if s.failed_paths.isEmpty then []
    else ["Failed images (" ++ toString s.failed_paths.length ++ "): " ++
      String.intercalate ", " (s.failed_paths.map file_name_of)]
  String.intercalate "\n" ([line1, line2] ++ failedLines)

/-- The `images` payload of `api::StableDiffusionResponse` (api.rs lines
24–31); the `parameters`/`info` fields are never read by the orchestrator and
are omitted. -/
structure StableDiffusionResponse where
  images : List String
  deriving Repr, DecidableEq

/-- The per-item outcome recording of `main.rs` (lines 150–170): only
`Ok(Some(generated))` with a successful save counts as a success; `Ok(None)`
and `Err(_)` both fall to the wildcard arm and are recorded as failures.
`save_ok` is the outcome of the external persistence collaborator
`FileManager::save_generated_images`. -/
def record_result (stats : ProcessingStats) (image_path : String)
    (result : Except String (Option StableDiffusionResponse)) (save_ok : Bool) :
    ProcessingStats :=
  match result with
  | .ok (some generated) =>
    if save_ok then recordSuccess stats generated.images.length
    else recordFailure stats image_path
  | _ => recordFailure stats image_path

/-! ## Claims -/

/-- C1 (code-bug evidence): with `maxAttempts = 2`, `baseDelay = 5` and a
remote call failing every time with `"file not found"` — an error the
classifier marks Permanent — `process_with_retry` invokes the call **twice**,
sleeping 5 ms before the second attempt, instead of the claimed single
invocation with no delay: the non-CUDA branch of the loop records the error
but does not break, so Permanent errors are retried exactly like Transient
ones.  (As written, the classifier's verdict never influences the loop's
result, only its console output, which is why this reads as a missing `break`
rather than an intended design.) -/
theorem c1_permanent_error_still_retried :
    is_cuda_error "file not found" = false ∧
    process_with_retry 2 5 (fun _ => (.error "file not found" : Except String Nat)) =
      ⟨.error "file not found", 2, [5]⟩ :=
  ⟨rfl, rfl⟩

/-- C2: for the policy `{maxAttempts = 3, baseDelay = D}` and a remote call
failing on every invocation with a Transient-classified error, the call is
invoked exactly 3 times, the sleeps performed are `[D * 1, D * 2]` (no sleep —
delay 0 — precedes attempt 0), and the returned error is the failure observed
on the last invocation. -/
theorem c2_transient_exhaustion {α : Type} (D : Nat) (e : Nat → String)
    (htransient : ∀ n, is_cuda_error (e n) = true) :
    process_with_retry (α := α) 3 D (fun n => .error (e n)) =
      ⟨.error (e 2), 3, [D * 1, D * 2]⟩ := by
  have h := retryLoop_all_fail (α := α) 3 D e (fun n => .error (e n))
    (fun n => rfl) 3 0 none (by omega) (by omega)
  rw [process_with_retry, h]
  simp [backoffSleeps]

/-- Witness for C2 at `D = 7` and the constantly-"CUDA out of memory" call. -/
theorem c2_witness :
    (∀ n : Nat, is_cuda_error "CUDA out of memory" = true) ∧
    process_with_retry (α := Nat) 3 7 (fun _ => .error "CUDA out of memory") =
      ⟨.error "CUDA out of memory", 3, [7 * 1, 7 * 2]⟩ :=
  ⟨fun _ => rfl, c2_transient_exhaustion 7 (fun _ => "CUDA out of memory") (fun _ => rfl)⟩

/-- C3 (counterexample): the claim quantifies over *every* `totalCount`, but at
`groupSize = 2, index = 1, totalCount = 0` the code evaluates the `usize`
subtraction `total_count - 1`, which underflows (panic), instead of returning
the `false` that the claimed iff-condition `(1+1) % 2 = 0 ∧ 1 < 0 - 1`
prescribes. -/
theorem c3_counterexample :
    manage_batch_break 2 1 0 = none ∧ ¬((1 + 1) % 2 = 0 ∧ 1 < 0 - 1) :=
  ⟨rfl, by decide⟩

/-- C3 (amended): for every `groupSize ≥ 1` and `totalCount ≥ 1`,
`manage_batch_break` cools down iff `(index+1) % groupSize = 0` and
`index < totalCount - 1`; in particular for `groupSize = 2, totalCount = 5` it
cools down exactly at indices 1 and 3 (and not at 4, the last index). -/
theorem c3_cooldown_iff :
    (∀ groupSize index totalCount, 1 ≤ groupSize → 1 ≤ totalCount →
      (manage_batch_break groupSize index totalCount = some true ↔
        ((index + 1) % groupSize = 0 ∧ index < totalCount - 1))) ∧
    (∀ i, i < 5 → (manage_batch_break 2 i 5 = some true ↔ (i = 1 ∨ i = 3))) := by
  constructor
  · intro g i t hg ht
    have hg0 : ¬g = 0 := by omega
    have ht0 : ¬t = 0 := by omega
    by_cases h : (i + 1) % g = 0
    · simp [manage_batch_break, hg0, ht0, h]
    · simp [manage_batch_break, hg0, ht0, h]
  · decide

/-- Witness for C3 (amended) at `groupSize = 2, index = 1, totalCount = 5`. -/
theorem c3_witness :
    manage_batch_break 2 1 5 = some true ↔ ((1 + 1) % 2 = 0 ∧ 1 < 5 - 1) :=
  c3_cooldown_iff.1 2 1 5 (by decide) (by decide)

/-- C4: for every policy and injected call, the remote call is invoked at most
`maxAttempts` times; and if the invocations before `k` all fail while
invocation `k` (within budget) succeeds with `v`, the executor returns `.ok v`
having made exactly `k + 1` invocations — the first success short-circuits all
remaining attempts. -/
theorem c4_attempts_bounded_and_success_short_circuits {α : Type} (maxR D : Nat)
    (call : Nat → Except String α) :
    (process_with_retry maxR D call).calls ≤ maxR ∧
    (∀ k v, k < maxR → call k = .ok v → (∀ n, n < k → ∃ msg, call n = .error msg) →
      (process_with_retry maxR D call).outcome = .ok v ∧
      (process_with_retry maxR D call).calls = k + 1) := by
  constructor
  · exact retryLoop_calls_le maxR D call maxR 0 none
  · intro k v hk hok hfail
    have h := retryLoop_first_success maxR D call k v hk hok hfail maxR 0 none
      (by omega) (by omega)
    rw [process_with_retry, h]
    refine ⟨rfl, ?_⟩
    show k + 1 - 0 = k + 1
    omega

/-- Witness for C4: `maxAttempts = 3`, one transient failure then success at
attempt 1 — two invocations, success returned. -/
theorem c4_witness :
    (process_with_retry 3 7
      (fun n => if n = 0 then (.error "gpu busy" : Except String Nat) else .ok 42)).calls ≤ 3 ∧
    ((process_with_retry 3 7
      (fun n => if n = 0 then (.error "gpu busy" : Except String Nat) else .ok 42)).outcome = .ok 42 ∧
     (process_with_retry 3 7
      (fun n => if n = 0 then (.error "gpu busy" : Except String Nat) else .ok 42)).calls = 1 + 1) := by
  obtain ⟨h1, h2⟩ := c4_attempts_bounded_and_success_short_circuits 3 7
    (fun n => if n = 0 then (.error "gpu busy" : Except String Nat) else .ok 42)
  refine ⟨h1, h2 1 42 (by omega) rfl ?_⟩
  intro n hn
  have hn0 : n = 0 := by omega
  exact ⟨"gpu busy", by subst hn0; rfl⟩

/-- C5: any message whose lower-casing contains `"cuda"`, `"gpu"`, `"vram"` or
`"nvidia"` is classified Transient; and `is_cuda_error` is the pure function
that lower-cases its argument and applies the predicate set to the result. -/
theorem c5_gpu_terms_transient (msg : String)
    (h : OccursIn "cuda".data (strLower msg).data ∨
         OccursIn "gpu".data (strLower msg).data ∨
         OccursIn "vram".data (strLower msg).data ∨
         OccursIn "nvidia".data (strLower msg).data) :
    is_cuda_error msg = true ∧ is_cuda_error msg = is_cuda_error_lc (strLower msg) := by
  refine ⟨?_, rfl⟩
  rcases h with h | h | h | h <;>
    simp [is_cuda_error, is_cuda_error_lc, strContains, containsSub_of_occursIn h]

/-- Witness for C5 at the mixed-case message `"CUDA out of memory"`. -/
theorem c5_witness :
    is_cuda_error "CUDA out of memory" = true ∧
    is_cuda_error "CUDA out of memory" = is_cuda_error_lc (strLower "CUDA out of memory") :=
  c5_gpu_terms_transient "CUDA out of memory" (Or.inl ⟨[], " out of memory".data, by decide⟩)

/-- C6: the heap/system exclusion terms suppress the memory-pressure rules,
and an unmatched message is Permanent: `"Out of heap memory"`,
`"System memory exhausted"` and `"File not found"` all classify as Permanent
(`false`). -/
theorem c6_exclusions_permanent :
    is_cuda_error "Out of heap memory" = false ∧
    is_cuda_error "System memory exhausted" = false ∧
    is_cuda_error "File not found" = false :=
  ⟨rfl, rfl, rfl⟩

/-- C7 (counterexample): with `maxAttempts = 2`, `baseDelay = 3` and a remote
call failing every time with the raw transport error `"boom"`, the error
returned by `process_with_retry` is exactly that raw error — it is not
wrapped, and carries neither the work item's identity nor the attempt count
(those appear only in console output).  This refutes the claim that the
executor "never" returns the raw transport error. -/
theorem c7_counterexample :
    (process_with_retry 2 3 (fun _ => (.error "boom" : Except String Nat))).outcome =
      .error "boom" :=
  rfl

/-- C7 (amended): when the attempts are exhausted without a success, the error
returned is the *raw* last failure observed from the remote call, unchanged;
when `maxAttempts = 0` (no error was ever recorded) it is the generic
`"Exhausted all retry attempts without a specific error"`. -/
theorem c7_raw_last_error_returned {α : Type} (maxR D : Nat) (e : Nat → String)
    (h1 : 1 ≤ maxR) :
    (process_with_retry (α := α) maxR D (fun n => .error (e n))).outcome =
      .error (e (maxR - 1)) ∧
    (∀ call : Nat → Except String α,
      (process_with_retry 0 D call).outcome = .error exhaustedMsg) := by
  constructor
  · rw [process_with_retry, retryLoop_all_fail maxR D e _ (fun n => rfl) maxR 0 none
      (by omega) (by omega)]
  · intro call
    rfl

/-- Witness for C7 (amended) at `maxAttempts = 1` and the raw error `"boom"`. -/
theorem c7_witness :
    (process_with_retry (α := Nat) 1 9 (fun _ => .error "boom")).outcome =
      .error "boom" ∧
    (∀ call : Nat → Except String Nat,
      (process_with_retry 0 9 call).outcome = .error exhaustedMsg) :=
  c7_raw_last_error_returned 1 9 (fun _ => "boom") (by omega)

/-- C8: after three `recordSuccess` with artifact count 1 and two
`recordFailure`, the aggregator holds `success_count = 3`,
`generated_count = 3` and two failed paths; and `display` is a pure rendering
(a total function of the statistics that returns only text, mirroring the
`&self` receiver) that evaluates without error on a fresh aggregator with
`total_images = 0`. -/
theorem c8_aggregator_counts_and_display :
    (recordFailure (recordFailure
        (recordSuccess (recordSuccess (recordSuccess ProcessingStats.new 1) 1) 1)
        "a.png") "b.png").success_count = 3 ∧
    (recordFailure (recordFailure
        (recordSuccess (recordSuccess (recordSuccess ProcessingStats.new 1) 1) 1)
        "a.png") "b.png").generated_count = 3 ∧
    (recordFailure (recordFailure
        (recordSuccess (recordSuccess (recordSuccess ProcessingStats.new 1) 1) 1)
        "a.png") "b.png").failed_paths.length = 2 ∧
    ProcessingStats.display ProcessingStats.new 0 =
      "✓ Image generation complete!\nProcessed successfully: 0/0 images, Generated: 0 new images" :=
  ⟨rfl, rfl, rfl, rfl⟩

/-- C9: when the remote call chain produces `Ok(None)` — success with an empty
payload — the orchestrator's recording step files the item under
`failed_paths` (regardless of the persistence flag, which is never consulted)
and leaves `success_count` untouched. -/
theorem c9_empty_success_recorded_as_failure (stats : ProcessingStats)
    (path : String) (save_ok : Bool) :
    record_result stats path (.ok none) save_ok = recordFailure stats path ∧
    (record_result stats path (.ok none) save_ok).success_count = stats.success_count ∧
    (record_result stats path (.ok none) save_ok).failed_paths =
      stats.failed_paths ++ [path] :=
  ⟨rfl, rfl, rfl⟩

/-- C10: the pacing decisions are total exactly under the policy invariants:
with `groupSize = 0` both decisions hit `% 0` (panic, `none`) for every index;
with `totalCount = 0`, whenever the first conjunct holds so that the
short-circuiting `&&` reaches the comparison, `manage_batch_break` hits the
underflowing `usize` subtraction `0 - 1` (panic, `none`); and with
`groupSize ≥ 1` and `totalCount ≥ 1` both decisions always produce a value. -/
theorem c10_totality_under_invariants :
    (∀ index total_count, should_take_break 0 index = none ∧
      manage_batch_break 0 index total_count = none) ∧
    (∀ groupSize index, 1 ≤ groupSize → (index + 1) % groupSize = 0 →
      manage_batch_break groupSize index 0 = none) ∧
    (∀ groupSize index total_count, 1 ≤ groupSize → 1 ≤ total_count →
      (should_take_break groupSize index).isSome = true ∧
      (manage_batch_break groupSize index total_count).isSome = true) := by
  refine ⟨fun index total_count => ⟨rfl, rfl⟩, ?_, ?_⟩
  · intro g i hg h
    simp [manage_batch_break, (by omega : ¬g = 0), h]
  · intro g i t hg ht
    have hg0 : ¬g = 0 := by omega
    have ht0 : ¬t = 0 := by omega
    constructor
    · simp [should_take_break, hg0]
    · by_cases h : (i + 1) % g = 0 <;>
        simp [manage_batch_break, hg0, ht0, h]

/-- Witness for C10 at `groupSize = 2, index = 3` (and `index = 4`,
`totalCount = 9` for the in-invariant part). -/
theorem c10_witness :
    (should_take_break 0 4 = none ∧ manage_batch_break 0 4 9 = none) ∧
    manage_batch_break 2 3 0 = none ∧
    ((should_take_break 2 3).isSome = true ∧
      (manage_batch_break 2 3 9).isSome = true) := by
  obtain ⟨h1, h2, h3⟩ := c10_totality_under_invariants
  exact ⟨h1 4 9, h2 2 3 (by omega) (by decide), h3 2 3 9 (by omega) (by omega)⟩

/-- Witness for C9 at a concrete non-empty aggregator. -/
theorem c9_witness :
    record_result ⟨4, 7, ["x.png"]⟩ "item.png" (.ok none) true =
      recordFailure ⟨4, 7, ["x.png"]⟩ "item.png" ∧
    (record_result ⟨4, 7, ["x.png"]⟩ "item.png" (.ok none) true).success_count = 4 ∧
    (record_result ⟨4, 7, ["x.png"]⟩ "item.png" (.ok none) true).failed_paths =
      ["x.png"] ++ ["item.png"] :=
  c9_empty_success_recorded_as_failure ⟨4, 7, ["x.png"]⟩ "item.png" true
